import Mathlib

/-!
Shallow embedding of the product-testing workflow core
(src/core/views.py, src/core/serializers.py, src/core/models.py).

Statuses are the string tags the source compares against; timestamps are
abstract Nat instants supplied by the caller (the source's timezone.now()).
Each endpoint is a pure function from the relevant slice of store state to
a result together with the updated state; the lists `history` and
`notifications` hold, in creation order, the rows the endpoint inserted.
-/

namespace SuperDuper

/-- Machine-readable error kinds taken from the source's error payload codes
(INVALID_STATE, VALIDATION_ERROR, NOT_READY, 404 from queryset scoping,
PermissionDenied from DRF). -/
inductive ErrCode where
  | invalidState
  | validationError
  | notFound
  | notReady
  | permissionDenied
  deriving DecidableEq, Repr

/-- True exactly when an endpoint call returned a success payload. -/
def succeeds {α : Type} (e : Except ErrCode α) : Bool :=
  match e with
  | Except.ok _ => true
  | Except.error _ => false

/-- core.models.Product, restricted to the fields the workflow reads or writes. -/
structure Product where
  supplier_id : Nat
  name : String
  submission_status : String
  submission_date : Option Nat
  deriving DecidableEq, Repr

/-- core.models.Notification, restricted to the fields the workflow writes. -/
structure Notification where
  recipient_id : Nat
  recipient_type : String
  notification_type : String
  subject : String
  message : String
  status : String
  sent_at : Option Nat
  deriving DecidableEq, Repr

/-- core.models.TestHistory row as created by the workflow. -/
structure TestHistoryRec where
  changed_by : String
  change_type : String
  old_status : Option String
  new_status : Option String
  change_description : Option String
  deriving DecidableEq, Repr

/-- core.models.Test, restricted to the fields the workflow reads or writes;
product_supplier_id and product_name stand for test.product.supplier.supplier_id
and test.product.name. -/
structure Test where
  product_supplier_id : Nat
  product_name : String
  test_name : String
  status : String
  result_status : Option String
  result_summary : Option String
  result_data : String
  started_at : Option Nat
  completed_at : Option Nat
  deriving DecidableEq, Repr

/-- The slice of store state a Product endpoint touches: the product row and
the notifications table (creation order). -/
structure ProductState where
  product : Product
  notifications : List Notification
  deriving DecidableEq, Repr

/-- The slice of store state a Test endpoint touches: the test row, its
history rows and the notifications table, both in creation order. -/
structure TestState where
  test : Test
  history : List TestHistoryRec
  notifications : List Notification
  deriving DecidableEq, Repr

/-- The product row after ProductViewSet.submit mutates it (views.py 160-162). -/
def submittedProduct (p : Product) (now : Nat) : Product :=
  { p with submission_status := "submitted", submission_date := some now }

/-- The notification ProductViewSet.submit inserts (views.py 165-173). -/
def submitNotification (p : Product) (now : Nat) : Notification :=
  { recipient_id := p.supplier_id,
    recipient_type := "supplier",
    notification_type := "product_submitted",
    subject := "Product Submitted",
    message := "Your product \"" ++ p.name ++ "\" has been submitted for testing.",
    status := "sent",
    sent_at := some now }

/-- ProductViewSet.submit (views.py 147-179): rejects unless status is draft,
otherwise writes status/submission_date and inserts one notification. -/
def submit (s : ProductState) (now : Nat) : Except ErrCode Product × ProductState :=
  if s.product.submission_status ≠ "draft" then
    (Except.error ErrCode.invalidState, s)
  else
    (Except.ok (submittedProduct s.product now),
     { product := submittedProduct s.product now,
       notifications := s.notifications ++ [submitNotification s.product now] })

/-- The history row TestViewSet.perform_create inserts (views.py 296-301):
change_type test_created, new_status = the created test's status, no old_status. -/
def createHistoryRec (t : Test) (u : String) : TestHistoryRec :=
  { changed_by := u, change_type := "test_created",
    old_status := none, new_status := some t.status, change_description := none }

/-- TestViewSet.perform_create (views.py 292-301): saves the test then inserts
one test_created history row. -/
def perform_create_test (t : Test) (u : String) : TestState :=
  { test := t, history := [createHistoryRec t u], notifications := [] }

/-- The test row after TestViewSet.start mutates it (views.py 316-318). -/
def startedTest (t : Test) (now : Nat) : Test :=
  { t with status := "in_progress", started_at := some now }

/-- The history row TestViewSet.start inserts (views.py 321-327). -/
def startHistoryRec (u : String) : TestHistoryRec :=
  { changed_by := u, change_type := "test_started",
    old_status := some "scheduled", new_status := some "in_progress",
    change_description := none }

/-- TestViewSet.start (views.py 303-330): rejects unless status is scheduled,
otherwise writes status/started_at and inserts one history row. -/
def start (s : TestState) (u : String) (now : Nat) : Except ErrCode Test × TestState :=
  if s.test.status ≠ "scheduled" then
    (Except.error ErrCode.invalidState, s)
  else
    (Except.ok (startedTest s.test now),
     { s with test := startedTest s.test now,
              history := s.history ++ [startHistoryRec u] })

/-- The test row after TestViewSet.complete mutates it (views.py 349-354). -/
def completedTest (t : Test) (rs : String) (rsum : Option String) (rd : String)
    (now : Nat) : Test :=
  { t with status := "completed", result_status := some rs, result_summary := rsum,
           result_data := rd, completed_at := some now }

/-- The history row TestViewSet.complete inserts (views.py 357-364). The source
sets test.status = "completed" (line 349) before building this row, so the
old_status written here is read from the already-mutated test. -/
def completeHistoryRec (t2 : Test) (rs u : String) : TestHistoryRec :=
  { changed_by := u, change_type := "test_completed",
    old_status := some t2.status,
    new_status := some "completed",
    change_description := some ("Test completed with " ++ rs ++ " result") }

/-- The notification TestViewSet.complete inserts (views.py 367-375). -/
def completeNotification (t2 : Test) (rs : String) (now : Nat) : Notification :=
  { recipient_id := t2.product_supplier_id, recipient_type := "supplier",
    notification_type := "test_completed",
    subject := "Test Completed: " ++ t2.test_name,
    message := "Your product \"" ++ t2.product_name ++ "\" has completed " ++
               t2.test_name ++ " with " ++ rs ++ " result.",
    status := "sent", sent_at := some now }

/-- TestViewSet.complete (views.py 332-378): rejects when result_status is
missing or falsy (empty string), otherwise mutates the test, inserts one
history row (built after the mutation, as in the source) and one notification.
No check of the test's current status is performed. -/
def complete (s : TestState) (rs? rsum : Option String) (rd u : String)
    (now : Nat) : Except ErrCode Test × TestState :=
  match rs? with
  | none => (Except.error ErrCode.validationError, s)
  | some rs =>
    if rs = "" then (Except.error ErrCode.validationError, s)
    else
      (Except.ok (completedTest s.test rs rsum rd now),
       { test := completedTest s.test rs rsum rd now,
         history := s.history ++ [completeHistoryRec (completedTest s.test rs rsum rd now) rs u],
         notifications := s.notifications ++
           [completeNotification (completedTest s.test rs rsum rd now) rs now] })

/-- A partial update payload for the generic field-update path
(TestSerializer.update, serializers.py 162-172); absent fields are none. -/
structure TestPatch where
  status : Option String
  result_summary : Option String
  deriving DecidableEq, Repr

/-- The history row TestSerializer.update inserts on a status change
(serializers.py 165-171). -/
def statusUpdateRec (u oldSt newSt : String) : TestHistoryRec :=
  { changed_by := u, change_type := "status_update",
    old_status := some oldSt, new_status := some newSt,
    change_description := none }

/-- ModelSerializer.update's effect: write every field present in the payload. -/
def applyPatch (t : Test) (p : TestPatch) : Test :=
  { t with status := p.status.getD t.status,
           result_summary :=
             match p.result_summary with
             | some x => some x
             | none => t.result_summary }

/-- TestSerializer.update (serializers.py 162-172): inserts one status_update
history row exactly when the payload carries a status differing from the
stored one (reading old_status from the still-unmodified instance), then
writes the payload's fields. -/
def serializer_update (s : TestState) (p : TestPatch) (u : String) :
    Test × TestState :=
  (applyPatch s.test p,
   { s with test := applyPatch s.test p,
            history :=
              match p.status with
              | some st =>
                  if st ≠ s.test.status
                  then s.history ++ [statusUpdateRec u s.test.status st]
                  else s.history
              | none => s.history })

/-- core.models.Report, restricted to the fields the generator reads or writes. -/
structure Report where
  report_id : Nat
  status : String
  generated_at : Option Nat
  expires_at : Option Nat
  report_url : Option String
  s3_key : Option String
  deriving DecidableEq, Repr

/-- timedelta(days=30) in abstract seconds. -/
def thirtyDays : Nat := 30 * 86400

/-- Timer(5.0, ...) in views.py 414-415: the fixed generation delay in seconds. -/
def generationDelay : Nat := 5

/-- The timer callback complete_report (views.py 407-412), run at instant now. -/
def complete_report (r : Report) (now : Nat) : Report :=
  { r with status := "completed",
           generated_at := some now,
           expires_at := some (now + thirtyDays),
           report_url := some ("/api/v1/reports/" ++ toString r.report_id ++ "/download") }

/-- A report together with the instant its pending completion timer fires. -/
structure ReportJob where
  report : Report
  runs_at : Nat
  deriving DecidableEq, Repr

/-- ReportViewSet.perform_create (views.py 402-415): saves the report with
status generating and schedules complete_report after the fixed delay. -/
def report_create (r : Report) (now : Nat) : ReportJob :=
  { report := { r with status := "generating" }, runs_at := now + generationDelay }

/-- Observe a report job at instant t: the timer has fired iff its deadline
has elapsed, and the callback reads the clock when it runs. -/
def observe_report (j : ReportJob) (t : Nat) : Report :=
  if j.runs_at ≤ t then complete_report j.report t else j.report

/-- Python str() of an optional s3_key as interpolated by the f-string in
views.py 444 (None renders as "None"). -/
def s3KeyText (k : Option String) : String :=
  match k with
  | some s => s
  | none => "None"

/-- The payload ReportViewSet.download returns on success (views.py 442-447). -/
structure DownloadDescriptor where
  report_id : String
  download_url : String
  expires_in : String
  message : String
  deriving DecidableEq, Repr

/-- The payload built in views.py 442-447. -/
def downloadDescriptor (r : Report) : DownloadDescriptor :=
  { report_id := toString r.report_id,
    download_url := "https://reports-bucket.s3.amazonaws.com/" ++ s3KeyText r.s3_key,
    expires_in := "3600 seconds",
    message := "Use this URL to download the report" }

/-- ReportViewSet.download (views.py 429-447): rejects with NOT_READY unless
status is completed, otherwise returns the storage URL descriptor. -/
def download (r : Report) : Except ErrCode DownloadDescriptor :=
  if r.status ≠ "completed" then Except.error ErrCode.notReady
  else Except.ok (downloadDescriptor r)

/-- An authenticated principal: supplier id, username, staff flag. -/
structure Actor where
  supplier_id : Nat
  username : String
  is_staff : Bool
  deriving DecidableEq, Repr

/-- ProductViewSet.get_queryset (views.py 118-135) scopes non-staff users to
their own products, so get_object on another supplier's product raises 404. -/
def product_get_object (a : Actor) (s : ProductState) : Except ErrCode Product :=
  if a.is_staff || s.product.supplier_id == a.supplier_id then Except.ok s.product
  else Except.error ErrCode.notFound

/-- TestViewSet.get_queryset (views.py 267-285) applies no ownership filter:
every authenticated user can address every test. -/
def test_get_object (_a : Actor) (s : TestState) : Except ErrCode Test :=
  Except.ok s.test

/-- The submit endpoint as reached through routing: object lookup under the
actor's queryset, then the action body. -/
def submit_endpoint (a : Actor) (s : ProductState) (now : Nat) :
    Except ErrCode Product × ProductState :=
  match product_get_object a s with
  | Except.error e => (Except.error e, s)
  | Except.ok _ => submit s now

/-- The start endpoint as reached through routing. -/
def start_endpoint (a : Actor) (s : TestState) (now : Nat) :
    Except ErrCode Test × TestState :=
  match test_get_object a s with
  | Except.error e => (Except.error e, s)
  | Except.ok _ => start s a.username now

/-- The complete endpoint as reached through routing. -/
def complete_endpoint (a : Actor) (s : TestState) (rs? rsum : Option String)
    (rd : String) (now : Nat) : Except ErrCode Test × TestState :=
  match test_get_object a s with
  | Except.error e => (Except.error e, s)
  | Except.ok _ => complete s rs? rsum rd a.username now

/-- Checks a history sequence against a running expected previous status. -/
def chainFrom : Option String → List TestHistoryRec → Bool
  | _, [] => true
  | prev, h :: hs => (h.old_status == prev) && chainFrom h.new_status hs

/-- The spec's reconstruction invariant on a test's history in creation order:
the first row has old_status none and every later row's old_status equals the
previous row's new_status. -/
def historyChainOk (hs : List TestHistoryRec) : Bool :=
  chainFrom none hs

/-- The old_status of the most recently inserted history row. -/
def lastOldStatus (s : TestState) : Option (Option String) :=
  (s.history.getLast?).map TestHistoryRec.old_status

/-! Concrete fixtures used by witnesses and counterexamples. -/

def pDraft : Product :=
  { supplier_id := 7, name := "Gadget", submission_status := "draft",
    submission_date := none }

def psDraft : ProductState := { product := pDraft, notifications := [] }

def t0 : Test :=
  { product_supplier_id := 1, product_name := "Widget",
    test_name := "Drop resistance", status := "pending",
    result_status := none, result_summary := none, result_data := "",
    started_at := none, completed_at := none }

def tSched : Test := { t0 with status := "scheduled" }

def tInProg : Test := { t0 with status := "in_progress", started_at := some 5 }

def tDone : Test :=
  { t0 with status := "completed", result_status := some "pass",
            completed_at := some 9 }

def sSched : TestState :=
  { test := tSched,
    history := [createHistoryRec tSched "alice"],
    notifications := [] }

def sInProg : TestState :=
  { test := tInProg,
    history := [createHistoryRec tSched "alice", startHistoryRec "alice"],
    notifications := [] }

def sDone : TestState :=
  { test := tDone, history := [createHistoryRec tDone "alice"],
    notifications := [] }

def bob : Actor := { supplier_id := 2, username := "bob", is_staff := false }

/-- State reached by creating a pending test and completing it at once. -/
def sCreated : TestState := perform_create_test t0 "alice"

def sAfterComplete : TestState :=
  (complete sCreated (some "pass") (some "ok") "" "alice" 10).2

/-- C1: a successful Complete appends one TestHistory record whose old_status
equals the Test's status immediately before the call. REFUTED on the source:
completing a test that is in_progress records old_status "completed", the
post-mutation value, because views.py 349 overwrites test.status before the
history row is built at views.py 361. -/
theorem C1_complete_records_post_mutation_status :
    sInProg.test.status = "in_progress"
    ∧ succeeds (complete sInProg (some "pass") (some "ok") "" "alice" 20).1 = true
    ∧ lastOldStatus (complete sInProg (some "pass") (some "ok") "" "alice" 20).2
        = some (some "completed")
    ∧ lastOldStatus (complete sInProg (some "pass") (some "ok") "" "alice" 20).2
        ≠ some (some "in_progress") := by
  decide

/-- C2: the history chain invariant (first old_status none, each later row's
old_status equal to the previous row's new_status) holds after creation but is
broken by the first Complete: the trace create(pending) then Complete("pass")
yields rows (none, pending), (some "completed", some "completed"). -/
theorem C2_history_chain_broken :
    historyChainOk sCreated.history = true
    ∧ sAfterComplete.history.length = 2
    ∧ historyChainOk sAfterComplete.history = false := by
  decide

/-- C9 as stated is refuted: bob is neither the owning supplier (the test's
product belongs to supplier 1) nor staff, yet his Start call succeeds and
mutates the test, instead of failing with PermissionError. -/
theorem C9_counterexample :
    bob.is_staff = false
    ∧ sSched.test.product_supplier_id ≠ bob.supplier_id
    ∧ succeeds (start_endpoint bob sSched 5).1 = true
    ∧ (start_endpoint bob sSched 5).2.test.status = "in_progress" := by
  decide

def patchCancel : TestPatch := { status := some "cancelled", result_summary := none }

def rFresh : Report :=
  { report_id := 3, status := "pending", generated_at := none,
    expires_at := none, report_url := none, s3_key := none }

def rDone : Report :=
  { report_id := 4, status := "completed", generated_at := some 9,
    expires_at := some (9 + thirtyDays),
    report_url := some "/api/v1/reports/4/download",
    s3_key := some "reports/4.pdf" }

/-- The download URL always starts with the nonempty bucket prefix, so it is
never the empty string, whatever the stored s3_key is. -/
theorem s3_url_ne_empty (k : Option String) :
    "https://reports-bucket.s3.amazonaws.com/" ++ s3KeyText k ≠ "" := by
  intro h
  have h1 := congrArg String.length h
  rw [String.length_append] at h1
  have h2 : ("https://reports-bucket.s3.amazonaws.com/" : String).length = 40 := by
    decide
  have h3 : ("" : String).length = 0 := by decide
  omega

/-- C3: Submit succeeds iff the product is in draft; on success the status
becomes submitted, submission_date is set to now, and exactly one
product_submitted notification for the owning supplier is appended; otherwise
the call fails with InvalidStateError and the state is unchanged. -/
theorem C3_submit_spec (s : ProductState) (now : Nat) :
    (succeeds (submit s now).1 = true ↔ s.product.submission_status = "draft")
    ∧ (s.product.submission_status = "draft" →
        (submit s now).1 = Except.ok (submittedProduct s.product now)
        ∧ (submit s now).2.product.submission_status = "submitted"
        ∧ (submit s now).2.product.submission_date = some now
        ∧ (submit s now).2.notifications
            = s.notifications ++ [submitNotification s.product now]
        ∧ (submitNotification s.product now).notification_type = "product_submitted"
        ∧ (submitNotification s.product now).recipient_id = s.product.supplier_id)
    ∧ (s.product.submission_status ≠ "draft" →
        (submit s now).1 = Except.error ErrCode.invalidState
        ∧ (submit s now).2 = s) := by
  by_cases h : s.product.submission_status = "draft" <;>
    simp [submit, h, succeeds, submittedProduct, submitNotification]

theorem C3_submit_spec_witness :
    (succeeds (submit psDraft 5).1 = true ↔ psDraft.product.submission_status = "draft")
    ∧ (submit psDraft 5).2.product.submission_status = "submitted" := by
  have h := C3_submit_spec psDraft 5
  exact ⟨h.1, (h.2.1 (by decide)).2.1⟩

/-- C4: Start succeeds iff the test is scheduled; on success the status becomes
in_progress, started_at is set, and exactly one test_started history row with
old scheduled and new in_progress is appended; otherwise the call fails with
InvalidStateError and the state is unchanged. -/
theorem C4_start_spec (s : TestState) (u : String) (now : Nat) :
    (succeeds (start s u now).1 = true ↔ s.test.status = "scheduled")
    ∧ (s.test.status = "scheduled" →
        (start s u now).1 = Except.ok (startedTest s.test now)
        ∧ (start s u now).2.test.status = "in_progress"
        ∧ (start s u now).2.test.started_at = some now
        ∧ (start s u now).2.history = s.history ++ [startHistoryRec u]
        ∧ (startHistoryRec u).change_type = "test_started"
        ∧ (startHistoryRec u).old_status = some "scheduled"
        ∧ (startHistoryRec u).new_status = some "in_progress")
    ∧ (s.test.status ≠ "scheduled" →
        (start s u now).1 = Except.error ErrCode.invalidState
        ∧ (start s u now).2 = s) := by
  by_cases h : s.test.status = "scheduled" <;>
    simp [start, h, succeeds, startedTest, startHistoryRec]

theorem C4_start_spec_witness :
    (succeeds (start sSched "alice" 5).1 = true ↔ sSched.test.status = "scheduled")
    ∧ (start sSched "alice" 5).2.test.status = "in_progress" := by
  have h := C4_start_spec sSched "alice" 5
  exact ⟨h.1, (h.2.1 (by decide)).2.1⟩

/-- C5: the generic field-update path appends a history row exactly when the
payload writes a status different from the stored one, and that single row
records the stored status as old and the written status as new. -/
theorem C5_update_history (s : TestState) (p : TestPatch) (u : String) :
    (∀ st, p.status = some st → st ≠ s.test.status →
        (serializer_update s p u).2.history
          = s.history ++ [statusUpdateRec u s.test.status st]
        ∧ (statusUpdateRec u s.test.status st).old_status = some s.test.status
        ∧ (statusUpdateRec u s.test.status st).new_status = some st
        ∧ (serializer_update s p u).2.test.status = st)
    ∧ (∀ st, p.status = some st → st = s.test.status →
        (serializer_update s p u).2.history = s.history)
    ∧ (p.status = none → (serializer_update s p u).2.history = s.history) := by
  refine ⟨?_, ?_, ?_⟩
  · intro st hst hne
    simp [serializer_update, hst, hne, applyPatch, statusUpdateRec]
  · intro st hst heq
    simp [serializer_update, hst, heq]
  · intro hnone
    simp [serializer_update, hnone]

theorem C5_update_history_witness :
    (serializer_update sSched patchCancel "carol").2.history
      = sSched.history ++ [statusUpdateRec "carol" sSched.test.status "cancelled"] := by
  exact ((C5_update_history sSched patchCancel "carol").1 "cancelled"
    (by decide) (by decide)).1

/-- C6: Create returns at once with status generating; once the fixed delay
has elapsed the observed report is completed, generated_at is the completion
instant, expires_at is exactly 30 days later, and the download reference is
assigned. -/
theorem C6_report_lifecycle (r : Report) (now t : Nat)
    (h : (report_create r now).runs_at ≤ t) :
    (report_create r now).report.status = "generating"
    ∧ (observe_report (report_create r now) t).status = "completed"
    ∧ (observe_report (report_create r now) t).generated_at = some t
    ∧ (observe_report (report_create r now) t).expires_at = some (t + thirtyDays)
    ∧ (observe_report (report_create r now) t).report_url
        = some ("/api/v1/reports/" ++ toString r.report_id ++ "/download") := by
  simp [report_create, observe_report, complete_report] at h ⊢
  simp [h]

theorem C6_report_lifecycle_witness :
    (report_create rFresh 0).report.status = "generating"
    ∧ (observe_report (report_create rFresh 0) 5).status = "completed" := by
  have h := C6_report_lifecycle rFresh 0 5 (by decide)
  exact ⟨h.1, h.2.1⟩

/-- C7: Download fails with NotReadyError exactly when the report is not
completed, and on a completed report it returns the descriptor, whose
download URL is nonempty. -/
theorem C7_download_spec (r : Report) :
    (download r = Except.error ErrCode.notReady ↔ r.status ≠ "completed")
    ∧ (r.status = "completed" →
        download r = Except.ok (downloadDescriptor r)
        ∧ (downloadDescriptor r).download_url ≠ "") := by
  constructor
  · by_cases h : r.status = "completed" <;> simp [download, h]
  · intro h
    refine ⟨by simp [download, h], ?_⟩
    simpa [downloadDescriptor] using s3_url_ne_empty r.s3_key

theorem C7_download_spec_witness :
    (download rDone = Except.error ErrCode.notReady ↔ rDone.status ≠ "completed")
    ∧ (downloadDescriptor rDone).download_url ≠ "" := by
  have h := C7_download_spec rDone
  exact ⟨h.1, (h.2 (by decide)).2⟩

/-- C8: Complete fails with ValidationError exactly when result_status is
missing or empty, and on that failure nothing in the state changes. -/
theorem C8_complete_validation (s : TestState) (rs? rsum : Option String)
    (rd u : String) (now : Nat) :
    ((complete s rs? rsum rd u now).1 = Except.error ErrCode.validationError
       ↔ rs? = none ∨ rs? = some "")
    ∧ (rs? = none ∨ rs? = some "" →
        (complete s rs? rsum rd u now).2 = s) := by
  cases rs? with
  | none => simp [complete]
  | some rs => by_cases h : rs = "" <;> simp [complete, h]

theorem C8_complete_validation_witness :
    ((complete sSched (some "") none "" "bob" 3).1
        = Except.error ErrCode.validationError
      ↔ (some "" : Option String) = none ∨ (some "" : Option String) = some "")
    ∧ (complete sSched (some "") none "" "bob" 3).2 = sSched := by
  have h := C8_complete_validation sSched (some "") none "" "bob" 3
  exact ⟨h.1, h.2 (Or.inr rfl)⟩

/-- C9 amended: Product Submit by a non-staff actor who does not own the
product fails with NotFoundError (queryset scoping) and leaves the state
unchanged; the Test endpoints apply no ownership check at all — any
authenticated actor's Start or Complete behaves exactly as the owner's. -/
theorem C9_amended_ownership (a : Actor) (ps : ProductState) (ts : TestState)
    (now : Nat) (rs? rsum : Option String) (rd : String) :
    (a.is_staff = false → ps.product.supplier_id ≠ a.supplier_id →
        submit_endpoint a ps now = (Except.error ErrCode.notFound, ps))
    ∧ start_endpoint a ts now = start ts a.username now
    ∧ complete_endpoint a ts rs? rsum rd now = complete ts rs? rsum rd a.username now := by
  refine ⟨?_, rfl, rfl⟩
  intro hstaff hown
  simp [submit_endpoint, product_get_object, hstaff, hown]

theorem C9_amended_ownership_witness :
    submit_endpoint bob psDraft 4 = (Except.error ErrCode.notFound, psDraft) := by
  exact (C9_amended_ownership bob psDraft sSched 4 none none "").1
    (by decide) (by decide)

/-- C10: Complete checks no precondition on the test's current status: for a
test in any status, a Complete with nonempty result_status succeeds, writes
result fields and completed_at, appends exactly one history row and one
notification, and never fails with InvalidStateError; repeated calls repeat
these effects. -/
theorem C10_complete_unconditional (s : TestState) (rs : String)
    (rsum : Option String) (rd u : String) (now : Nat) (h : rs ≠ "") :
    (complete s (some rs) rsum rd u now).1
        = Except.ok (completedTest s.test rs rsum rd now)
    ∧ (complete s (some rs) rsum rd u now).2.test.status = "completed"
    ∧ (complete s (some rs) rsum rd u now).2.test.result_status = some rs
    ∧ (complete s (some rs) rsum rd u now).2.test.completed_at = some now
    ∧ (complete s (some rs) rsum rd u now).2.history.length = s.history.length + 1
    ∧ (complete s (some rs) rsum rd u now).2.notifications.length
        = s.notifications.length + 1
    ∧ (complete s (some rs) rsum rd u now).1 ≠ Except.error ErrCode.invalidState := by
  simp [complete, h, completedTest]

theorem C10_complete_unconditional_witness :
    (complete sDone (some "fail") none "" "alice" 30).2.test.status = "completed"
    ∧ (complete sDone (some "fail") none "" "alice" 30).2.history.length
        = sDone.history.length + 1 := by
  have h := C10_complete_unconditional sDone "fail" none "" "alice" 30 (by decide)
  exact ⟨h.2.1, h.2.2.2.2.1⟩

end SuperDuper
